import Mathlib

/-!
Verification of the batch retrieval and tiered-storage pipeline of the
`vh` repository (ClassPlus batch file extractor bot).

This file gives a shallow embedding of the core modules:

* `src/bot/models.py`    — data model (`OrgCode`, `BatchFile`, `DownloadProgress`)
* `src/bot/exceptions.py`— the error taxonomy
* `src/bot/utils.py`     — `validate_org_code`, `sanitize_filename`
* `src/bot/database.py`  — the MongoDB / GridFS adapter (`Database`)
* `src/bot/extractor.py` — the resilient fetcher (`ClassPlusExtractor`)
* `src/bot/batch_service.py` — the batch orchestrator (`BatchService`)
* `src/bot/api.py`       — the API wrapper (`BatchFileAPI`)

Conventions of the embedding:

* Bytes are `List Nat`; timestamps (`datetime.utcnow()` values, file
  mtimes) are explicit `Nat` parameters called `now` threaded to each
  operation that reads the clock.
* GridFS `ObjectId`s are opaque in the source; they are modelled as `Nat`
  drawn from a fresh counter in the store state.
* A backing-store failure (a `PyMongoError` raised by a pymongo call) is
  modelled by an `err : Option String` argument to every `Database`
  method: `none` means the backend works, `some msg` means every pymongo
  call raises with message `msg`.  Each method's reaction to the error is
  translated from its own `except PyMongoError` clause.
* The network is modelled by environment arguments: the per-attempt HTTP
  outcomes seen by `_make_request`, and the outcomes of the extractor
  calls made by the service.
* Python exceptions become the `Exc` inductive; a fallible call returns
  `Except Exc α`.  A raised exception propagates via the `.error` case.
-/

/-- Byte strings (`bytes` in the source) as lists of byte values. -/
abbrev ByteL := List Nat

/-! ## exceptions.py — error taxonomy -/

/-- The exception classes of `src/bot/exceptions.py` that the core can
raise, with the payload fields their constructors store. -/
inductive Exc where
  | orgCodeNotFoundError (org_code : String)
  | batchFileNotFoundError (batch_id : String) (org_code : Option String)
  | downloadFailedError (url : String) (reason : String)
  | storageError (operation : String) (reason : String)
  | rateLimitExceededError (retry_after : Nat)
  | validationError (field : String) (value : String) (reason : String)
  | parseError (content : String) (reason : String)
  deriving DecidableEq, Repr

/-- Python `type(e).__name__` for the modelled exception classes. -/
def Exc.pyName : Exc → String
  | .orgCodeNotFoundError _ => "OrgCodeNotFoundError"
  | .batchFileNotFoundError _ _ => "BatchFileNotFoundError"
  | .downloadFailedError _ _ => "DownloadFailedError"
  | .storageError _ _ => "StorageError"
  | .rateLimitExceededError _ => "RateLimitExceededError"
  | .validationError _ _ _ => "ValidationError"
  | .parseError _ _ => "ParseError"

/-- True exactly on the `ParseError` class. -/
def Exc.isParseErr : Exc → Bool
  | .parseError _ _ => true
  | _ => false

/-! ## config.py — configuration defaults used by the embedded core -/

/-- Default retry budget (`MAX_RETRIES = 3` in `src/bot/config.py`). -/
def MAX_RETRIES : Nat := 3

/-- Default cache time-to-live in seconds (`CACHE_TTL = 3600`). -/
def CACHE_TTL : Nat := 3600

/-! ## models.py — data model -/

/-- The raw remote batch descriptor: the dictionary shape consumed from
`data['batches']` by `BatchService.fetch_batches_by_org_code`.  Only the
keys the core reads are modelled; each optional key is an `Option`
(Python `dict.get` with a default). -/
structure BatchDescriptor where
  batch_id : String
  batch_name : Option String := none
  filename : Option String := none
  org_name : Option String := none
  deriving DecidableEq, Repr

/-- `OrgCode` dataclass of `src/bot/models.py`: an organization record. -/
structure OrgCode where
  org_code : String
  org_name : String
  batch_count : Nat := 0
  created_at : Nat := 0
  updated_at : Nat := 0
  deriving DecidableEq, Repr

/-- `BatchFile` dataclass of `src/bot/models.py`: a batch record.  The
GridFS id in `file_id` is modelled as `Nat` (ObjectIds are opaque);
`metadata` holds the raw remote descriptor that
`fetch_batches_by_org_code` stores there. -/
structure BatchFile where
  batch_id : String
  org_code : String
  batch_name : String
  filename : String
  file_size : Nat := 0
  content_type : String := "application/octet-stream"
  file_id : Option Nat := none
  created_at : Nat := 0
  downloaded_at : Option Nat := none
  metadata : Option BatchDescriptor := none
  deriving DecidableEq, Repr

/-- `DownloadProgress` dataclass of `src/bot/models.py`.  The float
`progress_percentage` property is presentation-only and not modelled. -/
structure DownloadProgress where
  total_files : Nat
  downloaded_files : Nat := 0
  failed_files : Nat := 0
  total_bytes : Nat := 0
  downloaded_bytes : Nat := 0
  start_time : Nat := 0
  end_time : Option Nat := none
  deriving DecidableEq, Repr

/-- The `is_complete` property of `DownloadProgress`. -/
def DownloadProgress.is_complete (p : DownloadProgress) : Bool :=
  p.downloaded_files + p.failed_files ≥ p.total_files

/-! ## utils.py — validation and filename sanitization -/

/-- Characters the regex `[a-zA-Z0-9]` of `validate_org_code` accepts
(Lean's `Char.isAlphanum` is exactly the ASCII letters and digits). -/
def orgCodeChar (c : Char) : Bool := c.isAlphanum

/-- `validate_org_code` from `src/bot/utils.py`: empty or non-matching
strings raise `ValidationError`; a match returns `True`.  (The
`isinstance` check is a static truth in the typed embedding.) -/
def validate_org_code (org_code : String) : Except Exc Bool :=
  if org_code = "" then
    .error (.validationError "org_code" org_code "Organization code cannot be empty")
  else if 3 ≤ org_code.length ∧ org_code.length ≤ 20 ∧ org_code.toList.all orgCodeChar then
    .ok true
  else
    .error (.validationError "org_code" org_code
      "Organization code must be 3-20 alphanumeric characters")

/-- Characters replaced by an underscore in `sanitize_filename`. -/
def invalidFilenameChar (c : Char) : Bool :=
  c = '<' ∨ c = '>' ∨ c = ':' ∨ c = '"' ∨ c = '/' ∨ c = '\\' ∨ c = '|' ∨ c = '?' ∨ c = '*'

/-- Python `str.strip('. ')`: drop leading and trailing dots and spaces. -/
def stripDotsSpaces (cs : List Char) : List Char :=
  ((cs.dropWhile (fun c => c = '.' ∨ c = ' ')).reverse.dropWhile
    (fun c => c = '.' ∨ c = ' ')).reverse

/-- Split a filename into `Path(..).stem` and `Path(..).suffix` (the part
from the final dot, empty when there is no interior dot). -/
def splitExt (cs : List Char) : List Char × List Char :=
  let tail := (cs.reverse.takeWhile (fun c => c ≠ '.')).reverse
  if tail.length < cs.length ∧ 0 < cs.length - (tail.length + 1) then
    (cs.take (cs.length - (tail.length + 1)), '.' :: tail)
  else
    (cs, [])

/-- `sanitize_filename` from `src/bot/utils.py`: replace invalid
characters with underscores, strip leading and trailing dots and spaces,
map the empty result to `unnamed_file`, and truncate names longer than
255 characters keeping the extension. -/
def sanitize_filename (filename : String) : String :=
  let f1 := (filename.toList.map (fun c => if invalidFilenameChar c then '_' else c))
  let f2 := stripDotsSpaces f1
  let f3 := if f2 = [] then "unnamed_file".toList else f2
  if f3.length > 255 then
    let (stem, ext) := splitExt f3
    String.mk (stem.take (255 - ext.length) ++ ext)
  else
    String.mk f3

/-! ## database.py — the Metadata Store and Blob Store adapter

Every method takes `err : Option String`: `none` means the pymongo /
gridfs backend works; `some msg` means each backend call raises a
`PyMongoError` (respectively a gridfs exception) carrying `msg`.  Each
method's translation follows its own `try/except` clause in
`src/bot/database.py`. -/

/-- A stored GridFS file: content plus the `filename` passed to `put`. -/
structure GridFile where
  data : ByteL
  filename : String
  deriving DecidableEq, Repr

/-- The persistent state behind a `Database` instance: the two record
collections and the GridFS blob namespace with its fresh-id counter. -/
structure DBState where
  orgCodes : List OrgCode := []
  batchFiles : List BatchFile := []
  gridfs : List (Nat × GridFile) := []
  gridNext : Nat := 0
  deriving DecidableEq, Repr

/-- `find_one({"org_code": code})` on the organization collection. -/
def findOrg (l : List OrgCode) (code : String) : Option OrgCode :=
  l.find? (fun o => o.org_code == code)

/-- `find_one({"batch_id": id})` on the batch collection. -/
def findBatch (l : List BatchFile) (batch_id : String) : Option BatchFile :=
  l.find? (fun b => b.batch_id == batch_id)

/-- `fs.get(id).read()` in GridFS: the stored bytes for an id. -/
def gridLookup (g : List (Nat × GridFile)) (file_id : Nat) : Option ByteL :=
  (g.find? (fun p => p.1 == file_id)).map (fun p => p.2.data)

/-- `Database.create_org_code`: `insert_one`; a `PyMongoError` (including
the duplicate-key error from the unique index on `org_code`) becomes
`StorageError("create_org_code", cause)`. -/
def Database.create_org_code (err : Option String) (st : DBState) (o : OrgCode) :
    Except Exc DBState :=
  match err with
  | some m => .error (.storageError "create_org_code" m)
  | none =>
    if (findOrg st.orgCodes o.org_code).isSome then
      .error (.storageError "create_org_code" "duplicate key")
    else
      .ok { st with orgCodes := st.orgCodes ++ [o] }

/-- `Database.get_org_code`: `find_one`; a `PyMongoError` becomes
`StorageError("get_org_code", cause)`. -/
def Database.get_org_code (err : Option String) (st : DBState) (code : String) :
    Except Exc (Option OrgCode) :=
  match err with
  | some m => .error (.storageError "get_org_code" m)
  | none => .ok (findOrg st.orgCodes code)

/-- The update dictionary passed to `Database.update_org_code`; a `none`
field is a key absent from the dictionary.  (`updated_at` is always
overwritten by the method itself.) -/
structure OrgUpdates where
  batch_count : Option Nat := none
  deriving DecidableEq, Repr

/-- Apply an `update_one .. $set` dictionary to one organization record;
unspecified fields are untouched (per-field last-write-wins). -/
def applyOrgUpdates (now : Nat) (u : OrgUpdates) (o : OrgCode) : OrgCode :=
  { o with
    batch_count := u.batch_count.getD o.batch_count
    updated_at := now }

/-- `Database.update_org_code`: forces `updated_at = utcnow()` into the
update dictionary, runs `update_one`, returns whether a record changed;
a `PyMongoError` becomes `StorageError("update_org_code", cause)`. -/
def Database.update_org_code (err : Option String) (now : Nat) (st : DBState)
    (code : String) (u : OrgUpdates) : Except Exc (Bool × DBState) :=
  match err with
  | some m => .error (.storageError "update_org_code" m)
  | none =>
    if (findOrg st.orgCodes code).isSome then
      .ok (true, { st with
        orgCodes := st.orgCodes.map (fun o =>
          if o.org_code == code then applyOrgUpdates now u o else o) })
    else
      .ok (false, st)

/-- `Database.delete_org_code`: `delete_one`; returns whether a record was
deleted; a `PyMongoError` becomes `StorageError("delete_org_code", cause)`. -/
def Database.delete_org_code (err : Option String) (st : DBState) (code : String) :
    Except Exc (Bool × DBState) :=
  match err with
  | some m => .error (.storageError "delete_org_code" m)
  | none =>
    if (findOrg st.orgCodes code).isSome then
      .ok (true, { st with orgCodes := st.orgCodes.filter (fun o => o.org_code != code) })
    else
      .ok (false, st)

/-- `Database.create_batch_file`: `insert_one` on the batch collection
(unique index on `batch_id`); a `PyMongoError` becomes
`StorageError("create_batch_file", cause)`. -/
def Database.create_batch_file (err : Option String) (st : DBState) (b : BatchFile) :
    Except Exc DBState :=
  match err with
  | some m => .error (.storageError "create_batch_file" m)
  | none =>
    if (findBatch st.batchFiles b.batch_id).isSome then
      .error (.storageError "create_batch_file" "duplicate key")
    else
      .ok { st with batchFiles := st.batchFiles ++ [b] }

/-- `Database.get_batch_file`: `find_one`; on a `PyMongoError` the method
logs and RETURNS `None` (it does not raise `StorageError`). -/
def Database.get_batch_file (err : Option String) (st : DBState) (batch_id : String) :
    Except Exc (Option BatchFile) :=
  match err with
  | some _ => .ok none
  | none => .ok (findBatch st.batchFiles batch_id)

/-- `Database.get_batches_by_org_code`: `find({"org_code": code})`; on a
`PyMongoError` the method logs and RETURNS the empty list (so the caller
falls back to the network), it does not raise `StorageError`. -/
def Database.get_batches_by_org_code (err : Option String) (st : DBState)
    (code : String) : Except Exc (List BatchFile) :=
  match err with
  | some _ => .ok []
  | none => .ok (st.batchFiles.filter (fun b => b.org_code == code))

/-- The update dictionary passed to `Database.update_batch_file` by the
service; a `none` field is a key absent from the dictionary. -/
structure BatchUpdates where
  file_id : Option Nat := none
  file_size : Option Nat := none
  downloaded_at : Option Nat := none
  deriving DecidableEq, Repr

/-- Apply an `update_one .. $set` dictionary to one batch record;
unspecified fields are untouched (per-field last-write-wins). -/
def applyBatchUpdates (u : BatchUpdates) (b : BatchFile) : BatchFile :=
  { b with
    file_id := match u.file_id with | some f => some f | none => b.file_id
    file_size := u.file_size.getD b.file_size
    downloaded_at := match u.downloaded_at with | some t => some t | none => b.downloaded_at }

/-- `Database.update_batch_file`: `update_one`; returns whether a record
changed; a `PyMongoError` becomes `StorageError("update_batch_file", cause)`. -/
def Database.update_batch_file (err : Option String) (st : DBState)
    (batch_id : String) (u : BatchUpdates) : Except Exc (Bool × DBState) :=
  match err with
  | some m => .error (.storageError "update_batch_file" m)
  | none =>
    if (findBatch st.batchFiles batch_id).isSome then
      .ok (true, { st with
        batchFiles := st.batchFiles.map (fun b =>
          if b.batch_id == batch_id then applyBatchUpdates u b else b) })
    else
      .ok (false, st)

/-- `Database.delete_batch_file`: `delete_one`; a `PyMongoError` becomes
`StorageError("delete_batch_file", cause)`. -/
def Database.delete_batch_file (err : Option String) (st : DBState)
    (batch_id : String) : Except Exc (Bool × DBState) :=
  match err with
  | some m => .error (.storageError "delete_batch_file" m)
  | none =>
    if (findBatch st.batchFiles batch_id).isSome then
      .ok (true, { st with batchFiles := st.batchFiles.filter (fun b => b.batch_id != batch_id) })
    else
      .ok (false, st)

/-- `Database.delete_batches_by_org_code`: `delete_many`; returns the
deleted count; a `PyMongoError` becomes
`StorageError("delete_batches_by_org_code", cause)`. -/
def Database.delete_batches_by_org_code (err : Option String) (st : DBState)
    (code : String) : Except Exc (Nat × DBState) :=
  match err with
  | some m => .error (.storageError "delete_batches_by_org_code" m)
  | none =>
    .ok ((st.batchFiles.filter (fun b => b.org_code == code)).length,
      { st with batchFiles := st.batchFiles.filter (fun b => b.org_code != code) })

/-- `Database.store_file`: `fs.put` allocates a fresh ObjectId and stores
the content; a `PyMongoError` becomes `StorageError("store_file", cause)`. -/
def Database.store_file (err : Option String) (st : DBState) (file_data : ByteL)
    (filename : String) : Except Exc (Nat × DBState) :=
  match err with
  | some m => .error (.storageError "store_file" m)
  | none =>
    .ok (st.gridNext, { st with
      gridfs := (st.gridNext, GridFile.mk file_data filename) :: st.gridfs
      gridNext := st.gridNext + 1 })

/-- `Database.get_file`: `fs.get(..).read()`; the method catches EVERY
exception (missing file or failing backend alike) and returns `None`. -/
def Database.get_file (err : Option String) (st : DBState) (file_id : Nat) :
    Except Exc (Option ByteL) :=
  match err with
  | some _ => .ok none
  | none => .ok (gridLookup st.gridfs file_id)

/-- `Database.delete_file`: `fs.delete` (a no-op on a missing id, hence
`True` whenever the backend works); every exception is caught and the
method returns `False` with the state untouched. -/
def Database.delete_file (err : Option String) (st : DBState) (file_id : Nat) :
    Bool × DBState :=
  match err with
  | some _ => (false, st)
  | none => (true, { st with gridfs := st.gridfs.filter (fun p => p.1 != file_id) })

/-- `Database.file_exists`: `fs.exists`; every exception is caught and the
method returns `False`. -/
def Database.file_exists (err : Option String) (st : DBState) (file_id : Nat) : Bool :=
  match err with
  | some _ => false
  | none => (gridLookup st.gridfs file_id).isSome

/-! ## extractor.py — the resilient fetcher -/

/-- An HTTP response as seen by `_make_request`: status code, the
optional `Retry-After` header, and a body of endpoint-specific shape. -/
structure HTTPResponse (β : Type) where
  status : Nat
  retryAfter : Option Nat := none
  body : β
  deriving DecidableEq, Repr

/-- What one attempt of `session.request` produces: either a response or
a connection-level `requests.exceptions.RequestException` (timeout,
connection error) carrying its message. -/
inductive AttemptResult (β : Type) where
  | resp (r : HTTPResponse β)
  | reqException (msg : String)
  deriving DecidableEq, Repr

/-- The retry loop body of `ClassPlusExtractor._make_request`, with the
attempt environment `attempts` giving the outcome of each attempt index.
Returns the result together with the number of attempts actually made.

Translation notes: a 429 raises `RateLimitExceededError` (an
`ExtractorBaseException`, NOT a `requests` exception, so the
`except RequestException` clause does not catch it and no retry
happens); a non-429 status of 400 or above makes `raise_for_status`
raise `HTTPError`, which IS a `RequestException` and follows the retry
path; on the final attempt the failure becomes `DownloadFailedError`. -/
def makeRequestFrom {β : Type} (url : String) (attempts : Nat → AttemptResult β) :
    Nat → Nat → (Except Exc (HTTPResponse β)) × Nat
  | _, 0 => (.error (.downloadFailedError url "Max retries exceeded"), 0)
  | attempt, remaining + 1 =>
    match attempts attempt with
    | .resp r =>
      if r.status = 429 then
        (.error (.rateLimitExceededError (r.retryAfter.getD 60)), 1)
      else if 400 ≤ r.status then
        if remaining = 0 then
          (.error (.downloadFailedError url ("HTTP " ++ Nat.repr r.status)), 1)
        else
          let (res, n) := makeRequestFrom url attempts (attempt + 1) remaining
          (res, n + 1)
      else
        (.ok r, 1)
    | .reqException msg =>
      if remaining = 0 then
        (.error (.downloadFailedError url msg), 1)
      else
        let (res, n) := makeRequestFrom url attempts (attempt + 1) remaining
        (res, n + 1)

/-- `ClassPlusExtractor._make_request`: run the retry loop over the
default `MAX_RETRIES` budget, starting at attempt 0. -/
def ClassPlusExtractor.make_request {β : Type} (url : String)
    (attempts : Nat → AttemptResult β) : (Except Exc (HTTPResponse β)) × Nat :=
  makeRequestFrom url attempts 0 MAX_RETRIES

/-- The JSON body of the batch-list endpoint as `fetch_org_batches` sees
it after `response.json()`: whether the whole value is truthy, and the
value of the `batches` key when present. -/
structure BatchListBody where
  truthy : Bool := true
  batches : Option (List BatchDescriptor) := none
  deriving DecidableEq, Repr

/-- `ClassPlusExtractor.fetch_org_batches`: request the batch-list
endpoint, then `if not data or 'batches' not in data: raise
OrgCodeNotFoundError(org_code)`, else return `data['batches']`.

The `except HTTPError` / 404 clause of the source is unreachable:
`_make_request` never re-raises `HTTPError` (it converts exhausted HTTP
failures to `DownloadFailedError`), so errors propagate unchanged. -/
def ClassPlusExtractor.fetch_org_batches (org_code : String)
    (attempts : Nat → AttemptResult BatchListBody) : Except Exc (List BatchDescriptor) :=
  match (ClassPlusExtractor.make_request
      ("/api/org/" ++ org_code ++ "/batches") attempts).1 with
  | .error e => .error e
  | .ok r =>
    if r.body.truthy = false then
      .error (.orgCodeNotFoundError org_code)
    else
      match r.body.batches with
      | none => .error (.orgCodeNotFoundError org_code)
      | some bs => .ok bs

/-! ## batch_service.py — TTL disk cache -/

/-- A cache file `{batch_id}.cache`: its bytes and filesystem mtime. -/
structure CacheEntry where
  data : ByteL
  mtime : Nat
  deriving DecidableEq, Repr

/-- The cache directory contents, keyed by batch id. -/
abbrev CacheState := List (String × CacheEntry)

/-- Filesystem lookup of `{batch_id}.cache`. -/
def cacheLookup (c : CacheState) (batch_id : String) : Option CacheEntry :=
  (c.find? (fun p => p.1 == batch_id)).map (fun p => p.2)

/-- `cache_path.unlink()`: remove the cache file for a batch id. -/
def cacheRemove (c : CacheState) (batch_id : String) : CacheState :=
  c.filter (fun p => p.1 != batch_id)

/-- `BatchService._get_from_cache`: disabled caching reports absent; an
existing file is returned while `utcnow() - mtime < CACHE_TTL` holds
strictly, and is deleted (lazy expiry) and reported absent otherwise.
Returns the read result together with the cache directory afterwards. -/
def BatchService.get_from_cache (enabled : Bool) (ttl : Nat) (now : Nat)
    (c : CacheState) (batch_id : String) : Option ByteL × CacheState :=
  if enabled = false then
    (none, c)
  else
    match cacheLookup c batch_id with
    | none => (none, c)
    | some e =>
      if (now : Int) - (e.mtime : Int) < (ttl : Int) then
        (some e.data, c)
      else
        (none, cacheRemove c batch_id)

/-- `BatchService._save_to_cache`: a no-op when caching is disabled,
otherwise an idempotent overwrite stamping the current mtime. -/
def BatchService.save_to_cache (enabled : Bool) (now : Nat) (c : CacheState)
    (batch_id : String) (file_data : ByteL) : CacheState :=
  if enabled = false then c
  else (batch_id, CacheEntry.mk file_data now) :: cacheRemove c batch_id

/-- `BatchService._delete_from_cache`: a no-op when caching is disabled. -/
def BatchService.delete_from_cache (enabled : Bool) (c : CacheState)
    (batch_id : String) : CacheState :=
  if enabled = false then c else cacheRemove c batch_id

/-! ## batch_service.py — metadata synchronization -/

/-- The `BatchFile(...)` constructor call inside
`fetch_batches_by_org_code`: a fresh record built from one remote
descriptor (durable reference, size and download timestamp take their
dataclass defaults). -/
def mkBatchFile (now : Nat) (org_code : String) (bd : BatchDescriptor) : BatchFile :=
  { batch_id := bd.batch_id
    org_code := org_code
    batch_name := bd.batch_name.getD "Unnamed Batch"
    filename := sanitize_filename (bd.filename.getD (bd.batch_id ++ ".pdf"))
    created_at := now
    metadata := some bd }

/-- The per-descriptor loop of `fetch_batches_by_org_code`: build the
fresh `BatchFile`, create a store record only when `get_batch_file`
finds none, and collect the fresh objects in order.  A raised
`StorageError` propagates, keeping the mutations made so far. -/
def fetchLoop (now : Nat) (err : Option String) (org_code : String) :
    List BatchDescriptor → DBState → (Except Exc (List BatchFile)) × DBState
  | [], st => (.ok [], st)
  | bd :: rest, st =>
    let bf := mkBatchFile now org_code bd
    match Database.get_batch_file err st bf.batch_id with
    | .error e => (.error e, st)
    | .ok existing =>
      match (if existing.isNone then Database.create_batch_file err st bf
             else .ok st) with
      | .error e => (.error e, st)
      | .ok st1 =>
        match fetchLoop now err org_code rest st1 with
        | (.error e, st2) => (.error e, st2)
        | (.ok bfs, st2) => (.ok (bf :: bfs), st2)

/-- The network path of `fetch_batches_by_org_code` (everything after the
cache check): consume the extractor result `net`, create or update the
organization record, then run the per-descriptor loop. -/
def fetchNetwork (now : Nat) (err : Option String)
    (net : Except Exc (List BatchDescriptor)) (st : DBState) (org_code : String) :
    (Except Exc (List BatchFile)) × DBState :=
  match net with
  | .error e => (.error e, st)
  | .ok bdl =>
    match Database.get_org_code err st org_code with
    | .error e => (.error e, st)
    | .ok none =>
      let o : OrgCode :=
        { org_code := org_code
          org_name := match bdl with
            | [] => org_code
            | bd :: _ => bd.org_name.getD org_code
          batch_count := bdl.length
          created_at := now
          updated_at := now }
      match Database.create_org_code err st o with
      | .error e => (.error e, st)
      | .ok st1 => fetchLoop now err org_code bdl st1
    | .ok (some _) =>
      match Database.update_org_code err now st org_code
          (OrgUpdates.mk (some bdl.length)) with
      | .error e => (.error e, st)
      | .ok (_, st1) => fetchLoop now err org_code bdl st1

/-- `BatchService.fetch_batches_by_org_code`: validate the code; without
`force_refresh` return the stored records when there are any (no network
call); otherwise take the network path.  `net` is the outcome of the one
possible `extractor.fetch_org_batches` call; the returned `Nat` counts
how many extractor calls were made (0 or 1). -/
def BatchService.fetch_batches_by_org_code (now : Nat) (err : Option String)
    (net : Except Exc (List BatchDescriptor)) (st : DBState) (org_code : String)
    (force_refresh : Bool) : (Except Exc (List BatchFile)) × DBState × Nat :=
  match validate_org_code org_code with
  | .error e => (.error e, st, 0)
  | .ok _ =>
    let cached : List BatchFile :=
      if force_refresh = false then
        match Database.get_batches_by_org_code err st org_code with
        | .ok l => l
        | .error _ => []
      else []
    if force_refresh = false ∧ cached ≠ [] then
      (.ok cached, st, 0)
    else
      let (res, st') := fetchNetwork now err net st org_code
      (res, st', 1)

/-! ## batch_service.py — content download -/

/-- The combined service state: the Metadata/Blob stores plus the TTL
cache directory. -/
structure SvcState where
  db : DBState := {}
  cache : CacheState := []
  deriving DecidableEq, Repr

/-- The network environment of one `download_batch_file` call: the
outcome of `extractor.fetch_batch_file_url` and, per resolved URL, the
outcome of `extractor.download_batch_content`. -/
structure DlEnv where
  fileUrl : Except Exc String
  content : String → Except Exc ByteL

/-- `BatchService.download_batch_file`, the tiered `downloadOne`:

1. with caching enabled, a fresh TTL-cache hit is returned at once (an
   expired entry is unlinked by the read);
2. a stored batch record with a durable `file_id` whose blob is
   retrievable is served from GridFS and written through to the cache;
3. otherwise the extractor resolves the download URL from the batch and
   org identifiers and streams the content; empty content raises
   `DownloadFailedError`; when a batch record exists, the blob is stored
   and the record's `file_id`, `file_size` and `downloaded_at` are
   updated; finally the content is written to the cache and returned. -/
def BatchService.download_batch_file (enabled : Bool) (ttl now : Nat)
    (err : Option String) (env : DlEnv) (st : SvcState)
    (batch_id org_code : String) : (Except Exc ByteL) × SvcState :=
  let (cres, cache1) :=
    if enabled then BatchService.get_from_cache enabled ttl now st.cache batch_id
    else (none, st.cache)
  let st := { st with cache := cache1 }
  match cres with
  | some d => (.ok d, st)
  | none =>
    let batchOpt : Option BatchFile :=
      match Database.get_batch_file err st.db batch_id with
      | .ok o => o
      | .error _ => none
    let gridData : Option ByteL :=
      match batchOpt with
      | some bf =>
        match bf.file_id with
        | some fid =>
          match Database.get_file err st.db fid with
          | .ok o => o
          | .error _ => none
        | none => none
      | none => none
    match gridData with
    | some d =>
      (.ok d, { st with cache := BatchService.save_to_cache enabled now st.cache batch_id d })
    | none =>
      match env.fileUrl with
      | .error e => (.error e, st)
      | .ok url =>
        match env.content url with
        | .error e => (.error e, st)
        | .ok file_data =>
          if file_data = [] then
            (.error (.downloadFailedError url "Empty file content"), st)
          else
            match batchOpt with
            | some bf =>
              match Database.store_file err st.db file_data bf.filename with
              | .error e => (.error e, st)
              | .ok (fid, db1) =>
                match Database.update_batch_file err db1 batch_id
                    (BatchUpdates.mk (some fid) (some file_data.length) (some now)) with
                | .error e => (.error e, { st with db := db1 })
                | .ok (_, db2) =>
                  (.ok file_data,
                    { db := db2
                      cache := BatchService.save_to_cache enabled now st.cache batch_id file_data })
            | none =>
              (.ok file_data,
                { st with cache := BatchService.save_to_cache enabled now st.cache batch_id file_data })

/-- One iteration of the `download_all_batches` loop when the skip check
fails: attempt `download_batch_file` and increment the succeeded or
failed counter (any raised exception is caught and counted). -/
def downloadAllTry (enabled : Bool) (ttl now : Nat) (err : Option String)
    (env : DlEnv) (org_code : String) (b : BatchFile) (st : SvcState)
    (p : DownloadProgress) : SvcState × DownloadProgress :=
  match BatchService.download_batch_file enabled ttl now err env st b.batch_id org_code with
  | (.ok d, st') =>
    (st', { p with
      downloaded_files := p.downloaded_files + 1
      downloaded_bytes := p.downloaded_bytes + d.length })
  | (.error _, st') =>
    (st', { p with failed_files := p.failed_files + 1 })

/-- The per-batch loop of `download_all_batches`: skip (counting a
success) when not forcing and the record's durable reference is present
in GridFS, else attempt the download.  `envs` gives the network
environment of each batch's download attempt. -/
def downloadAllLoop (enabled : Bool) (ttl now : Nat) (err : Option String)
    (envs : String → DlEnv) (org_code : String) (force_refresh : Bool) :
    List BatchFile → SvcState → DownloadProgress → SvcState × DownloadProgress
  | [], st, p => (st, p)
  | b :: rest, st, p =>
    match b.file_id with
    | some fid =>
      if force_refresh = false ∧ Database.file_exists err st.db fid then
        downloadAllLoop enabled ttl now err envs org_code force_refresh rest st
          { p with downloaded_files := p.downloaded_files + 1 }
      else
        let (st', p') := downloadAllTry enabled ttl now err (envs b.batch_id) org_code b st p
        downloadAllLoop enabled ttl now err envs org_code force_refresh rest st' p'
    | none =>
      let (st', p') := downloadAllTry enabled ttl now err (envs b.batch_id) org_code b st p
      downloadAllLoop enabled ttl now err envs org_code force_refresh rest st' p'

/-- `BatchService.download_all_batches`: fetch the batch list (its
exceptions propagate), initialize the progress with `total_files` equal
to the list length, run the per-batch loop, and set the end time once
all batches are attempted. -/
def BatchService.download_all_batches (enabled : Bool) (ttl now : Nat)
    (err : Option String) (net : Except Exc (List BatchDescriptor))
    (envs : String → DlEnv) (st : SvcState) (org_code : String)
    (force_refresh : Bool) : (Except Exc DownloadProgress) × SvcState :=
  match BatchService.fetch_batches_by_org_code now err net st.db org_code force_refresh with
  | (.error e, db', _) => (.error e, { st with db := db' })
  | (.ok batches, db', _) =>
    let p0 : DownloadProgress := { total_files := batches.length, start_time := now }
    let (st', p) :=
      downloadAllLoop enabled ttl now err envs org_code force_refresh batches
        { db := db', cache := st.cache } p0
    (.ok { p with end_time := some now }, st')

/-! ## api.py — the API wrapper -/

/-- The dictionary built for each batch by
`BatchFileAPI.get_batches_by_org_code` (the float `file_size_formatted`
presentation string is not modelled).  The `downloaded` flag is
`batch.file_id is not None`. -/
structure APIBatchEntry where
  batch_id : String
  batch_name : String
  filename : String
  file_size : Nat
  content_type : String
  created_at : Nat
  downloaded : Bool
  downloaded_at : Option Nat
  deriving DecidableEq, Repr

/-- The per-batch dictionary construction of
`BatchFileAPI.get_batches_by_org_code` (src/bot/api.py lines 74-87). -/
def apiBatchEntry (b : BatchFile) : APIBatchEntry :=
  { batch_id := b.batch_id
    batch_name := b.batch_name
    filename := b.filename
    file_size := b.file_size
    content_type := b.content_type
    created_at := b.created_at
    downloaded := b.file_id.isSome
    downloaded_at := b.downloaded_at }

/-- The response dictionary of `BatchFileAPI.download_batch`: success
flag, the file bytes on success, and the reported error class name on
failure. -/
structure DownloadBatchResp where
  success : Bool
  file_data : Option ByteL := none
  errType : Option String := none
  deriving DecidableEq, Repr

/-- `BatchFileAPI.download_batch`: run the service download; on success
look the batch record up and raise `BatchFileNotFoundError` when it is
absent; every raised exception is caught and mapped to a failure
dictionary naming its class. -/
def BatchFileAPI.download_batch (enabled : Bool) (ttl now : Nat)
    (err : Option String) (env : DlEnv) (st : SvcState)
    (batch_id org_code : String) : DownloadBatchResp × SvcState :=
  match BatchService.download_batch_file enabled ttl now err env st batch_id org_code with
  | (.error e, st') => (DownloadBatchResp.mk false none (some e.pyName), st')
  | (.ok file_data, st') =>
    match Database.get_batch_file err st'.db batch_id with
    | .ok (some _) => (DownloadBatchResp.mk true (some file_data) none, st')
    | .ok none => (DownloadBatchResp.mk false none (some "BatchFileNotFoundError"), st')
    | .error e => (DownloadBatchResp.mk false none (some e.pyName), st')

/-! ## Concrete fixtures used by the closed example theorems -/

/-- A network environment whose resolved URL serves three bytes. -/
def envC1 : DlEnv := { fileUrl := .ok "http://u", content := fun _ => .ok [1, 2, 3] }

/-- An attempt environment answering 200 with a body that carries no
`batches` key. -/
def attemptsC5 : Nat → AttemptResult BatchListBody :=
  fun _ => .resp { status := 200, body := { truthy := true, batches := none } }

/-- An attempt environment answering 429 with `Retry-After: 30`. -/
def attemptsC6 : Nat → AttemptResult BatchListBody :=
  fun _ => .resp { status := 429, retryAfter := some 30, body := {} }

/-- True exactly when a fetch outcome is a raised `ParseError`. -/
def resultErrIsParse (x : Except Exc (List BatchDescriptor)) : Bool :=
  match x with
  | .error e => e.isParseErr
  | .ok _ => false

/-- Five stored batch records for organization `abcde`, none downloaded. -/
def bsW : List BatchFile :=
  [ { batch_id := "w1", org_code := "abcde", batch_name := "B1", filename := "w1.pdf" },
    { batch_id := "w2", org_code := "abcde", batch_name := "B2", filename := "w2.pdf" },
    { batch_id := "w3", org_code := "abcde", batch_name := "B3", filename := "w3.pdf" },
    { batch_id := "w4", org_code := "abcde", batch_name := "B4", filename := "w4.pdf" },
    { batch_id := "w5", org_code := "abcde", batch_name := "B5", filename := "w5.pdf" } ]

/-- A service state already holding the five records of `bsW`. -/
def stW : SvcState := { db := { batchFiles := bsW } }

/-- Download environments in which batch `w3` fails (its content stream
raises) and every other batch serves one byte. -/
def envsW : String → DlEnv := fun batch_id =>
  if batch_id == "w3" then
    { fileUrl := .ok "http://w", content := fun _ => .error (.downloadFailedError "http://w" "boom") }
  else
    { fileUrl := .ok "http://w", content := fun _ => .ok [7] }

/-- The progress that `download_all_batches` reports on the `stW`/`envsW`
scenario: five batches, four succeeded, one failed. -/
def pW : DownloadProgress :=
  { total_files := 5, downloaded_files := 4, failed_files := 1,
    downloaded_bytes := 4, start_time := 9, end_time := some 9 }

/-- A store holding one batch record, used to exercise backend failures. -/
def dbC8 : DBState :=
  { batchFiles := [{ batch_id := "b1", org_code := "abc",
                     batch_name := "B", filename := "b1.pdf" }] }

/-- A batch record that has already been downloaded: its durable
reference points at blob 0. -/
def recC2 : BatchFile :=
  { batch_id := "b1", org_code := "abc", batch_name := "B1", filename := "b1.pdf",
    file_size := 3, file_id := some 0, created_at := 1, downloaded_at := some 1 }

/-- A store holding the downloaded record `recC2` and its blob. -/
def dbC2 : DBState :=
  { batchFiles := [recC2], gridfs := [(0, GridFile.mk [1, 2, 3] "b1.pdf")], gridNext := 1 }

/-- A remote listing that re-lists the already-downloaded batch `b1` and
adds a new batch `b2`. -/
def bdlC2 : List BatchDescriptor :=
  [ { batch_id := "b1", batch_name := some "B1", filename := some "b1.pdf" },
    { batch_id := "b2", batch_name := some "B2", filename := some "b2.pdf" } ]

/-- The first descriptor of `bdlC2`: the re-listed batch `b1`. -/
def bdC10 : BatchDescriptor :=
  { batch_id := "b1", batch_name := some "B1", filename := some "b1.pdf" }

/-- A remote listing with the single new batch `b1`. -/
def bdlC4 : List BatchDescriptor := [{ batch_id := "b1" }]

/-- An attempt outcome that the retry handler of `_make_request` catches
and retries: a connection-level `RequestException`, or a response whose
non-429 status makes `raise_for_status` raise `HTTPError`. -/
def retryableFail {β : Type} : AttemptResult β → Bool
  | .reqException _ => true
  | .resp r => decide (400 ≤ r.status ∧ r.status ≠ 429)

/-! ## Helper lemmas -/

/-- A `find?` hit in a prefix survives appending. -/
theorem find?_append_left {α : Type} {p : α → Bool} {l₁ : List α} {a : α}
    (l₂ : List α) (h : l₁.find? p = some a) : (l₁ ++ l₂).find? p = some a := by
  rw [List.find?_append, h]; rfl

/-- Looking a key up after deleting it always misses. -/
theorem gridLookup_filter_self (g : List (Nat × GridFile)) (fid : Nat) :
    gridLookup (g.filter (fun p => p.1 != fid)) fid = none := by
  have h : (g.filter (fun p => p.1 != fid)).find? (fun p => p.1 == fid) = none := by
    rw [List.find?_eq_none]
    intro x hx
    have := (List.mem_filter.1 hx).2
    simpa using this
  simp [gridLookup, h]

/-! ## Claim C7 — TTL cache read semantics -/

/-- Claim C7: with caching enabled, `_get_from_cache` returns the stored
bytes exactly when the cache file exists and its age `now - mtime` is
strictly below the TTL; reading an expired entry deletes the file and
reports absent; with caching disabled, `get` always reports absent and
`put`/`delete` leave the cache directory untouched. -/
theorem c7_ttl_cache_semantics (ttl now : Nat) (c : CacheState) (batch_id : String) :
    (∀ b : ByteL,
      (BatchService.get_from_cache true ttl now c batch_id).1 = some b ↔
        ∃ e, cacheLookup c batch_id = some e ∧
          (now : Int) - (e.mtime : Int) < (ttl : Int) ∧ b = e.data) ∧
    (∀ e, cacheLookup c batch_id = some e →
      ¬ ((now : Int) - (e.mtime : Int) < (ttl : Int)) →
      BatchService.get_from_cache true ttl now c batch_id = (none, cacheRemove c batch_id)) ∧
    BatchService.get_from_cache false ttl now c batch_id = (none, c) ∧
    (∀ d, BatchService.save_to_cache false now c batch_id d = c) ∧
    BatchService.delete_from_cache false c batch_id = c := by
  refine ⟨?_, ?_, ?_, ?_, ?_⟩
  · intro b
    unfold BatchService.get_from_cache
    rcases h : cacheLookup c batch_id with _ | e
    · simp [h]
    · by_cases hf : (now : Int) - (e.mtime : Int) < (ttl : Int)
      · simp only [h, if_pos hf]
        constructor
        · intro hb
          exact ⟨e, rfl, hf, (Option.some_inj.1 hb).symm⟩
        · rintro ⟨e', he', _, hbe⟩
          cases Option.some_inj.1 he'
          simp [hbe]
      · simp only [h, if_neg hf]
        constructor
        · intro hb; cases hb
        · rintro ⟨e', he', hfresh, _⟩
          cases Option.some_inj.1 he'
          exact absurd hfresh hf
  · intro e he hstale
    unfold BatchService.get_from_cache
    simp [he, hstale]
  · unfold BatchService.get_from_cache; simp
  · intro d; unfold BatchService.save_to_cache; simp
  · unfold BatchService.delete_from_cache; simp

/-- Witness for C7 at concrete inputs: an entry written at time 0 and
read at time 5000 with TTL 3600 is expired, so the read deletes it and
reports absent. -/
theorem c7_witness :
    BatchService.get_from_cache true 3600 5000 [("b", CacheEntry.mk [1] 0)] "b" =
      (none, cacheRemove [("b", CacheEntry.mk [1] 0)] "b") :=
  (c7_ttl_cache_semantics 3600 5000 [("b", CacheEntry.mk [1] 0)] "b").2.1
    (CacheEntry.mk [1] 0) rfl (by decide)

/-! ## Claim C9 — Blob Store round-trip -/

/-- Claim C9: storing bytes in the Blob Store and reading the returned id
back yields exactly those bytes; after deleting the id, `file_exists`
reports false and `get_file` reports absent (`None`), not an error. -/
theorem c9_blob_roundtrip (st : DBState) (b : ByteL) (name : String) (fid : Nat)
    (st1 : DBState) (r : Bool) (st2 : DBState)
    (h1 : Database.store_file none st b name = .ok (fid, st1))
    (h2 : Database.delete_file none st1 fid = (r, st2)) :
    Database.get_file none st1 fid = .ok (some b) ∧
    Database.file_exists none st2 fid = false ∧
    Database.get_file none st2 fid = .ok none := by
  unfold Database.store_file at h1
  have hp := Except.ok.inj h1
  rw [Prod.mk.injEq] at hp
  obtain ⟨hfid, hst1⟩ := hp
  subst hfid
  subst hst1
  unfold Database.delete_file at h2
  have hst2 := (congrArg Prod.snd h2).symm
  simp only at hst2
  subst hst2
  refine ⟨?_, ?_, ?_⟩
  · unfold Database.get_file gridLookup
    simp [List.find?_cons_of_pos]
  · unfold Database.file_exists
    simp only [List.filter_cons, bne_self_eq_false, Bool.false_eq_true, if_neg,
      reduceIte, gridLookup_filter_self]
    simp
  · unfold Database.get_file
    simp only [List.filter_cons, bne_self_eq_false, Bool.false_eq_true, if_neg,
      reduceIte, gridLookup_filter_self]

/-- Witness for C9: a one-byte blob stored into the empty store is read
back intact, and vanishes after deletion. -/
theorem c9_witness :
    Database.get_file none { gridfs := [(0, GridFile.mk [7] "f")], gridNext := 1 } 0 =
        .ok (some [7]) ∧
    Database.file_exists none { gridfs := [], gridNext := 1 } 0 = false ∧
    Database.get_file none { gridfs := [], gridNext := 1 } 0 = .ok none :=
  c9_blob_roundtrip {} [7] "f" 0
    { gridfs := [(0, GridFile.mk [7] "f")], gridNext := 1 } true
    { gridfs := [], gridNext := 1 } rfl rfl

/-! ## Claim C8 — Metadata Store backend errors -/

/-- Counterexample to C8 as stated: with the backing store raising (here
with message `backend unavailable`), `get_batch_file` returns the normal
absent result and `get_batches_by_org_code` returns a normal empty list
— neither fails with a `StorageError` — even though the queried record
exists in the store. -/
theorem c8_counterexample :
    Database.get_batch_file (some "backend unavailable") dbC8 "b1" = .ok none ∧
    Database.get_batches_by_org_code (some "backend unavailable") dbC8 "abc" = .ok [] ∧
    findBatch dbC8.batchFiles "b1" ≠ none :=
  ⟨rfl, rfl, by decide⟩

/-- Claim C8 as amended: every Metadata/Blob Store mutation and the
organization lookup fail with a `StorageError` naming the operation and
the underlying cause when the backing store raises; the two batch read
operations `get_batch_file` and `get_batches_by_org_code` instead
swallow the backend error and return absent respectively the empty list
(so their callers fall back to the network). -/
theorem c8_storage_error_policy (m : String) (st : DBState) (o : OrgCode)
    (code batch_id : String) (b : BatchFile) (u : OrgUpdates) (v : BatchUpdates)
    (now : Nat) (data : ByteL) (name : String) (fid : Nat) :
    Database.create_org_code (some m) st o = .error (.storageError "create_org_code" m) ∧
    Database.get_org_code (some m) st code = .error (.storageError "get_org_code" m) ∧
    Database.update_org_code (some m) now st code u =
      .error (.storageError "update_org_code" m) ∧
    Database.delete_org_code (some m) st code =
      .error (.storageError "delete_org_code" m) ∧
    Database.create_batch_file (some m) st b =
      .error (.storageError "create_batch_file" m) ∧
    Database.update_batch_file (some m) st batch_id v =
      .error (.storageError "update_batch_file" m) ∧
    Database.delete_batch_file (some m) st batch_id =
      .error (.storageError "delete_batch_file" m) ∧
    Database.delete_batches_by_org_code (some m) st code =
      .error (.storageError "delete_batches_by_org_code" m) ∧
    Database.store_file (some m) st data name = .error (.storageError "store_file" m) ∧
    Database.get_batch_file (some m) st batch_id = .ok none ∧
    Database.get_batches_by_org_code (some m) st code = .ok [] ∧
    Database.get_file (some m) st fid = .ok none :=
  ⟨rfl, rfl, rfl, rfl, rfl, rfl, rfl, rfl, rfl, rfl, rfl, rfl⟩

/-! ## Claim C6 — 429 fails immediately with the retry-after hint -/

/-- The retry loop hits a 429 after `k` retryable failures: it raises
`RateLimitExceededError` with the `Retry-After` value (60 when the header
is absent) at once, making `k + 1` attempts in total — no retry follows
the 429 itself. -/
theorem makeRequestFrom_429 {β : Type} (url : String)
    (attempts : Nat → AttemptResult β) (r : HTTPResponse β) (h429 : r.status = 429) :
    ∀ (k attempt remaining : Nat), k < remaining →
      (∀ i, i < k → retryableFail (attempts (attempt + i)) = true) →
      attempts (attempt + k) = .resp r →
      makeRequestFrom url attempts attempt remaining =
        (.error (.rateLimitExceededError (r.retryAfter.getD 60)), k + 1) := by
  intro k
  induction k with
  | zero =>
    intro attempt remaining hlt _ hr
    obtain ⟨rem, rfl⟩ : ∃ rem, remaining = rem + 1 :=
      ⟨remaining - 1, by omega⟩
    unfold makeRequestFrom
    rw [show attempt + 0 = attempt from rfl] at hr
    rw [hr]
    simp [h429]
  | succ k ih =>
    intro attempt remaining hlt hpre hr
    obtain ⟨rem, rfl⟩ : ∃ rem, remaining = rem + 1 :=
      ⟨remaining - 1, by omega⟩
    have hrem : rem ≠ 0 := by omega
    have hrec : makeRequestFrom url attempts (attempt + 1) rem =
        (.error (.rateLimitExceededError (r.retryAfter.getD 60)), k + 1) := by
      refine ih (attempt + 1) rem (by omega) ?_ ?_
      · intro i hi
        have := hpre (i + 1) (by omega)
        rw [show attempt + (i + 1) = attempt + 1 + i from by omega] at this
        exact this
      · rw [show attempt + 1 + k = attempt + (k + 1) from by omega]
        exact hr
    have h0 := hpre 0 (by omega)
    rw [show attempt + 0 = attempt from rfl] at h0
    unfold makeRequestFrom
    rcases ha : attempts attempt with r' | msg
    · rw [ha] at h0
      unfold retryableFail at h0
      have hstat : 400 ≤ r'.status ∧ r'.status ≠ 429 := of_decide_eq_true h0
      dsimp only
      rw [if_neg hstat.2, if_pos hstat.1, if_neg hrem, hrec]
    · dsimp only
      rw [if_neg hrem, hrec]

/-- Claim C6: a 429 response (reached after any run of retryable
failures within the attempt budget) makes `_make_request` fail
immediately with `RateLimitExceededError` carrying the server's
`Retry-After` value (60 when the header is absent), with zero additional
retry attempts. -/
theorem c6_rate_limit_no_retry {β : Type} (url : String)
    (attempts : Nat → AttemptResult β) (k : Nat) (r : HTTPResponse β)
    (hk : k < MAX_RETRIES)
    (hpre : ∀ i, i < k → retryableFail (attempts i) = true)
    (hr : attempts k = .resp r) (h429 : r.status = 429) :
    ClassPlusExtractor.make_request url attempts =
      (.error (.rateLimitExceededError (r.retryAfter.getD 60)), k + 1) := by
  unfold ClassPlusExtractor.make_request
  refine makeRequestFrom_429 url attempts r h429 k 0 MAX_RETRIES hk ?_ ?_
  · intro i hi
    simpa using hpre i hi
  · simpa using hr

/-- Witness for C6, the spec's own scenario: every attempt answers 429
with `Retry-After: 30`; the very first attempt surfaces
`RateLimitExceededError` with `retry_after = 30` and exactly one attempt
is made. -/
theorem c6_witness :
    ClassPlusExtractor.make_request "http://u" attemptsC6 =
      (.error (.rateLimitExceededError 30), 1) :=
  c6_rate_limit_no_retry "http://u" attemptsC6 0
    { status := 429, retryAfter := some 30, body := {} }
    (by decide) (fun i hi => absurd hi (Nat.not_lt_zero i)) rfl rfl

/-! ## Claim C5 — missing `batches` field in the list response -/

/-- Counterexample to C5 as stated: a 200 response whose body lacks the
`batches` field makes `fetch_org_batches` raise `OrgCodeNotFoundError`,
NOT the `ParseError` the claim requires (it does fail rather than return
an empty list, but with the organization-not-found class). -/
theorem c5_counterexample :
    ClassPlusExtractor.fetch_org_batches "abc" attemptsC5 =
      .error (.orgCodeNotFoundError "abc") ∧
    resultErrIsParse (ClassPlusExtractor.fetch_org_batches "abc" attemptsC5) = false :=
  ⟨rfl, rfl⟩

/-- Claim C5 as amended: for every batch-list response whose body is
falsy or lacks the `batches` field, `fetch_org_batches` fails with
`OrgCodeNotFoundError` (not `ParseError`) and never silently returns an
empty list. -/
theorem c5_missing_field_fails (org_code : String)
    (attempts : Nat → AttemptResult BatchListBody) (r : HTTPResponse BatchListBody)
    (hok : (ClassPlusExtractor.make_request
      ("/api/org/" ++ org_code ++ "/batches") attempts).1 = .ok r)
    (hbad : r.body.truthy = false ∨ r.body.batches = none) :
    ClassPlusExtractor.fetch_org_batches org_code attempts =
      .error (.orgCodeNotFoundError org_code) ∧
    ClassPlusExtractor.fetch_org_batches org_code attempts ≠ .ok [] := by
  have hmain : ClassPlusExtractor.fetch_org_batches org_code attempts =
      .error (.orgCodeNotFoundError org_code) := by
    unfold ClassPlusExtractor.fetch_org_batches
    rw [hok]
    dsimp only
    rcases hbad with hb | hb
    · rw [if_pos hb]
    · rcases ht : r.body.truthy with _ | _ <;> simp [hb]
  exact ⟨hmain, by rw [hmain]; intro h; cases h⟩

/-- Witness for C5 at a concrete input: the `attemptsC5` environment has
a 200 response whose body carries no `batches` key. -/
theorem c5_witness :
    ClassPlusExtractor.fetch_org_batches "xyz" attemptsC5 =
      .error (.orgCodeNotFoundError "xyz") ∧
    ClassPlusExtractor.fetch_org_batches "xyz" attemptsC5 ≠ .ok [] :=
  c5_missing_field_fails "xyz" attemptsC5
    { status := 200, body := { truthy := true, batches := none } } rfl (Or.inr rfl)

/-! ## Claim C1 — download with no Batch Record -/

/-- A cache directory with no file for the batch id reports absent and
is left unchanged, whether or not caching is enabled. -/
theorem get_from_cache_miss (enabled : Bool) (ttl now : Nat) (c : CacheState)
    (batch_id : String) (h : cacheLookup c batch_id = none) :
    BatchService.get_from_cache enabled ttl now c batch_id = (none, c) := by
  unfold BatchService.get_from_cache
  rcases enabled with _ | _ <;> simp [h]

/-- Counterexample to C1 as stated: `b9` has no Batch Record in the
empty state, no cache entry and no blob, yet `download_batch_file` does
NOT fail — it resolves a URL, downloads the content from the network and
returns it. -/
theorem c1_counterexample :
    (BatchService.download_batch_file true CACHE_TTL 50 none envC1 {} "b9" "abc").1 =
      .ok [1, 2, 3] := rfl

/-- Claim C1 as amended: when a batch has no Batch Record and no TTL
cache entry, `download_batch_file` does not fail terminally: it resolves
a download URL from the batch and org identifiers, downloads the
content, and returns it — without touching the Metadata or Blob Store
(no durable copy is recorded).  Only the API wrapper `download_batch`
then reports a `BatchFileNotFoundError` failure, discarding the
downloaded content. -/
theorem c1_no_record_still_downloads (enabled : Bool) (ttl now : Nat) (env : DlEnv)
    (st : SvcState) (batch_id org_code url : String) (d : ByteL)
    (hrec : findBatch st.db.batchFiles batch_id = none)
    (hcache : cacheLookup st.cache batch_id = none)
    (hurl : env.fileUrl = .ok url)
    (hcontent : env.content url = .ok d)
    (hne : d ≠ []) :
    BatchService.download_batch_file enabled ttl now none env st batch_id org_code =
      (.ok d, { st with
        cache := BatchService.save_to_cache enabled now st.cache batch_id d }) ∧
    (BatchFileAPI.download_batch enabled ttl now none env st batch_id org_code).1 =
      DownloadBatchResp.mk false none (some "BatchFileNotFoundError") := by
  have hdl : BatchService.download_batch_file enabled ttl now none env st batch_id org_code =
      (.ok d, { st with
        cache := BatchService.save_to_cache enabled now st.cache batch_id d }) := by
    unfold BatchService.download_batch_file
    have hc : (if enabled then BatchService.get_from_cache enabled ttl now st.cache batch_id
        else (none, st.cache)) = (none, st.cache) := by
      rcases enabled with _ | _
      · rfl
      · exact get_from_cache_miss true ttl now st.cache batch_id hcache
    rw [hc]
    dsimp only
    rw [show Database.get_batch_file none st.db batch_id = .ok none from by
      unfold Database.get_batch_file; rw [hrec]]
    dsimp only
    rw [hurl]
    dsimp only
    rw [hcontent]
    dsimp only
    rw [if_neg hne]
  refine ⟨hdl, ?_⟩
  unfold BatchFileAPI.download_batch
  rw [hdl]
  dsimp only
  rw [show Database.get_batch_file none st.db batch_id = .ok none from by
    unfold Database.get_batch_file
    exact congrArg Except.ok hrec]

/-- Witness for C1 at concrete inputs: the empty state holds no record
for `b7`, yet the download succeeds at the service layer while the API
reports `BatchFileNotFoundError`. -/
theorem c1_witness :
    BatchService.download_batch_file true CACHE_TTL 7 none envC1 {} "b7" "orgx" =
      (.ok [1, 2, 3],
        { db := {},
          cache := BatchService.save_to_cache true 7 [] "b7" [1, 2, 3] }) ∧
    (BatchFileAPI.download_batch true CACHE_TTL 7 none envC1 {} "b7" "orgx").1 =
      DownloadBatchResp.mk false none (some "BatchFileNotFoundError") :=
  c1_no_record_still_downloads true CACHE_TTL 7 envC1 {} "b7" "orgx" "http://u"
    [1, 2, 3] rfl rfl rfl rfl (by decide)

/-! ## Claim C3 — download-all progress accounting -/

/-- One download attempt adds exactly one to the succeeded or failed
counter and leaves the fixed progress fields untouched. -/
theorem downloadAllTry_counts (enabled : Bool) (ttl now : Nat) (err : Option String)
    (env : DlEnv) (org_code : String) (b : BatchFile) (st : SvcState)
    (p : DownloadProgress) :
    (downloadAllTry enabled ttl now err env org_code b st p).2.downloaded_files +
        (downloadAllTry enabled ttl now err env org_code b st p).2.failed_files =
      p.downloaded_files + p.failed_files + 1 ∧
    (downloadAllTry enabled ttl now err env org_code b st p).2.total_files = p.total_files ∧
    (downloadAllTry enabled ttl now err env org_code b st p).2.start_time = p.start_time ∧
    (downloadAllTry enabled ttl now err env org_code b st p).2.end_time = p.end_time := by
  unfold downloadAllTry
  rcases hdl : BatchService.download_batch_file enabled ttl now err env st b.batch_id org_code
    with ⟨res, st2⟩
  rcases res with e | dta <;> simp <;> omega

/-- Each batch of the `download_all_batches` loop contributes exactly one
increment to the succeeded or failed counter; the fixed fields are
untouched. -/
theorem downloadAllLoop_counts (enabled : Bool) (ttl now : Nat) (err : Option String)
    (envs : String → DlEnv) (org_code : String) (force_refresh : Bool) :
    ∀ (bs : List BatchFile) (st : SvcState) (p : DownloadProgress),
    (downloadAllLoop enabled ttl now err envs org_code force_refresh bs st p).2.downloaded_files +
        (downloadAllLoop enabled ttl now err envs org_code force_refresh bs st p).2.failed_files =
      p.downloaded_files + p.failed_files + bs.length ∧
    (downloadAllLoop enabled ttl now err envs org_code force_refresh bs st p).2.total_files =
      p.total_files ∧
    (downloadAllLoop enabled ttl now err envs org_code force_refresh bs st p).2.start_time =
      p.start_time ∧
    (downloadAllLoop enabled ttl now err envs org_code force_refresh bs st p).2.end_time =
      p.end_time := by
  intro bs
  induction bs with
  | nil => intro st p; simp [downloadAllLoop]
  | cons b rest ih =>
    intro st p
    unfold downloadAllLoop
    rcases hfid : b.file_id with _ | fid
    · dsimp only
      rcases htry : downloadAllTry enabled ttl now err (envs b.batch_id) org_code b st p
        with ⟨st', p'⟩
      have hc := downloadAllTry_counts enabled ttl now err (envs b.batch_id) org_code b st p
      rw [htry] at hc
      dsimp only at hc
      have hr := ih st' p'
      refine ⟨?_, ?_, ?_, ?_⟩ <;>
        simp only [hr.1, hr.2.1, hr.2.2.1, hr.2.2.2, hc.1, hc.2.1, hc.2.2.1, hc.2.2.2,
          List.length_cons] <;> omega
    · dsimp only
      by_cases hskip : force_refresh = false ∧ Database.file_exists err st.db fid
      · rw [if_pos hskip]
        have hr := ih st { p with downloaded_files := p.downloaded_files + 1 }
        refine ⟨?_, ?_, ?_, ?_⟩ <;>
          simp only [hr.1, hr.2.1, hr.2.2.1, hr.2.2.2, List.length_cons] <;> omega
      · rw [if_neg hskip]
        rcases htry : downloadAllTry enabled ttl now err (envs b.batch_id) org_code b st p
          with ⟨st', p'⟩
        have hc := downloadAllTry_counts enabled ttl now err (envs b.batch_id) org_code b st p
        rw [htry] at hc
        dsimp only at hc
        have hr := ih st' p'
        refine ⟨?_, ?_, ?_, ?_⟩ <;>
          simp only [hr.1, hr.2.1, hr.2.2.1, hr.2.2.2, hc.1, hc.2.1, hc.2.2.1, hc.2.2.2,
            List.length_cons] <;> omega

/-- Claim C3: when `download_all_batches` runs over a fetched batch list
of length `n`, the returned progress has `total_files = n`, each batch
contributed exactly one increment to the succeeded or failed counter (so
`downloaded_files + failed_files = total_files`; a per-batch exception
never aborts the remaining downloads), the end time is set after all
batches are attempted, and `is_complete` then holds. -/
theorem c3_download_all_accounting (enabled : Bool) (ttl now : Nat)
    (err : Option String) (net : Except Exc (List BatchDescriptor))
    (envs : String → DlEnv) (st : SvcState) (org_code : String)
    (force_refresh : Bool) (bs : List BatchFile) (db' : DBState) (k : Nat)
    (p : DownloadProgress) (st' : SvcState)
    (hfetch : BatchService.fetch_batches_by_org_code now err net st.db org_code
      force_refresh = (.ok bs, db', k))
    (hrun : BatchService.download_all_batches enabled ttl now err net envs st org_code
      force_refresh = (.ok p, st')) :
    p.total_files = bs.length ∧
    p.downloaded_files + p.failed_files = p.total_files ∧
    p.end_time = some now ∧
    p.is_complete = true := by
  unfold BatchService.download_all_batches at hrun
  rw [hfetch] at hrun
  dsimp only at hrun
  rcases hloop : downloadAllLoop enabled ttl now err envs org_code force_refresh bs
    { db := db', cache := st.cache } { total_files := bs.length, start_time := now }
    with ⟨stL, pL⟩
  rw [hloop] at hrun
  dsimp only at hrun
  have hc := downloadAllLoop_counts enabled ttl now err envs org_code force_refresh bs
    { db := db', cache := st.cache } { total_files := bs.length, start_time := now }
  rw [hloop] at hc
  dsimp only at hc
  obtain ⟨h1, h2, h3, h4⟩ := hc
  have hp := congrArg Prod.fst hrun
  dsimp only at hp
  have hp2 := Except.ok.inj hp
  subst hp2
  refine ⟨?_, ?_, rfl, ?_⟩
  · dsimp only
    exact h2
  · dsimp only
    omega
  · simp only [DownloadProgress.is_complete, ge_iff_le, decide_eq_true_eq]
    omega

/-- Witness for C3, the spec's own scenario: five batches of which `w3`
fails; the progress reports total 5, succeeded 4, failed 1, end time
set, completion true. -/
theorem c3_witness :
    pW.total_files = bsW.length ∧
    pW.downloaded_files + pW.failed_files = pW.total_files ∧
    pW.end_time = some 9 ∧
    pW.is_complete = true :=
  c3_download_all_accounting false 3600 9 none (.ok []) envsW stW "abcde" false
    bsW _ _ pW _ rfl rfl

/-! ## Claim C10 — the network path rebuilds fresh batch objects -/

/-- Every object the metadata sync loop returns is freshly constructed:
no durable reference, zero size, no download timestamp. -/
theorem fetchLoop_fresh (now : Nat) (err : Option String) (org_code : String) :
    ∀ (bdl : List BatchDescriptor) (st : DBState) (l : List BatchFile),
      (fetchLoop now err org_code bdl st).1 = .ok l →
      ∀ b ∈ l, b.file_id = none ∧ b.file_size = 0 ∧ b.downloaded_at = none := by
  intro bdl
  induction bdl with
  | nil =>
    intro st l h b hb
    simp only [fetchLoop] at h
    cases Except.ok.inj h
    cases hb
  | cons bd rest ih =>
    intro st l h b hb
    simp only [fetchLoop] at h
    rcases hg : Database.get_batch_file err st (mkBatchFile now org_code bd).batch_id
      with e | ex
    · rw [hg] at h; dsimp only at h; cases h
    · rw [hg] at h
      dsimp only at h
      rcases hcr : (if ex.isNone then
          Database.create_batch_file err st (mkBatchFile now org_code bd)
        else .ok st) with e | st1
      · rw [hcr] at h; dsimp only at h; cases h
      · rw [hcr] at h
        dsimp only at h
        rcases hrec : fetchLoop now err org_code rest st1 with ⟨res2, st2⟩
        rw [hrec] at h
        rcases res2 with e | bfs
        · dsimp only at h; cases h
        · dsimp only at h
          cases Except.ok.inj h
          rcases List.mem_cons.1 hb with hb1 | hb1
          · subst hb1
            exact ⟨rfl, rfl, rfl⟩
          · exact ih st1 bfs (by rw [hrec]) b hb1

/-- Lifting `fetchLoop_fresh` through the organization create/update
step of the network path. -/
theorem fetchNetwork_fresh (now : Nat) (err : Option String)
    (net : Except Exc (List BatchDescriptor)) (st : DBState) (org_code : String)
    (l : List BatchFile) (st' : DBState)
    (h : fetchNetwork now err net st org_code = (.ok l, st')) :
    ∀ b ∈ l, b.file_id = none ∧ b.file_size = 0 ∧ b.downloaded_at = none := by
  unfold fetchNetwork at h
  rcases net with e | bdl
  · simp at h
  · dsimp only at h
    split at h
    · simp at h
    · split at h
      · simp at h
      · rename_i st1 _
        exact fetchLoop_fresh now err org_code bdl st1 l (by rw [h])
    · split at h
      · simp at h
      · rename_i st1 _
        exact fetchLoop_fresh now err org_code bdl st1 l (by rw [h])

/-- Claim C10: whenever `fetch_batches_by_org_code` takes the network
path (forcing a refresh, or no stored batches for the org), every
returned `BatchFile` carries `file_id = none`, `file_size = 0` and
`downloaded_at = none` — even when the stored record holds a durable
reference — so the API entry built from it reports `downloaded = false`. -/
theorem c10_network_path_resets_download_state (now : Nat) (err : Option String)
    (net : Except Exc (List BatchDescriptor)) (st : DBState) (org_code : String)
    (force_refresh : Bool) (bs : List BatchFile) (st' : DBState) (k : Nat)
    (hpath : force_refresh = true ∨ Database.get_batches_by_org_code err st org_code = .ok [])
    (hfetch : BatchService.fetch_batches_by_org_code now err net st org_code force_refresh =
      (.ok bs, st', k)) :
    ∀ b ∈ bs, b.file_id = none ∧ b.file_size = 0 ∧ b.downloaded_at = none ∧
      (apiBatchEntry b).downloaded = false := by
  have hnet : fetchNetwork now err net st org_code = (.ok bs, st') := by
    unfold BatchService.fetch_batches_by_org_code at hfetch
    rcases hv : validate_org_code org_code with e | bv
    · rw [hv] at hfetch; simp at hfetch
    · rw [hv] at hfetch
      dsimp only at hfetch
      have hcached : (if force_refresh = false then
          match Database.get_batches_by_org_code err st org_code with
          | .ok l => l
          | .error _ => [] else []) = ([] : List BatchFile) := by
        rcases hpath with hf | hm
        · rw [hf]; rfl
        · rcases hforce : force_refresh with _ | _
          · simp [hm]
          · rfl
      rw [hcached] at hfetch
      simp only [ne_eq, not_true_eq_false, and_false, if_false] at hfetch
      rcases hn : fetchNetwork now err net st org_code with ⟨res2, st2⟩
      rw [hn] at hfetch
      dsimp only at hfetch
      have h1 := congrArg (fun x => x.1) hfetch
      have h2 := congrArg (fun x => x.2.1) hfetch
      dsimp only at h1 h2
      rw [h1, h2]
  intro b hb
  have hf := fetchNetwork_fresh now err net st org_code bs st' hnet b hb
  refine ⟨hf.1, hf.2.1, hf.2.2, ?_⟩
  unfold apiBatchEntry
  dsimp only
  rw [hf.1]
  rfl


/-! ## Claim C2 — re-sync never overwrites existing Batch Records -/

/-- A successful `create_batch_file` appends the record and certifies
that its batch id was not yet present. -/
theorem create_batch_file_ok (err : Option String) (st : DBState) (b : BatchFile)
    (st1 : DBState) (h : Database.create_batch_file err st b = .ok st1) :
    st1.batchFiles = st.batchFiles ++ [b] ∧
    findBatch st.batchFiles b.batch_id = none := by
  unfold Database.create_batch_file at h
  rcases err with _ | m
  · dsimp only at h
    by_cases hd : (findBatch st.batchFiles b.batch_id).isSome
    · rw [if_pos hd] at h; cases h
    · rw [if_neg hd] at h
      cases Except.ok.inj h
      exact ⟨rfl, Option.not_isSome_iff_eq_none.1 hd⟩
  · cases h

/-- The defining equation of `fetchLoop` on a non-empty descriptor list. -/
theorem fetchLoop_cons_eq (now : Nat) (err : Option String) (org_code : String)
    (bd : BatchDescriptor) (rest : List BatchDescriptor) (st : DBState) :
    fetchLoop now err org_code (bd :: rest) st =
      match Database.get_batch_file err st (mkBatchFile now org_code bd).batch_id with
      | .error e => (.error e, st)
      | .ok existing =>
        match (if existing.isNone then
            Database.create_batch_file err st (mkBatchFile now org_code bd)
          else .ok st) with
        | .error e => (.error e, st)
        | .ok st1 =>
          match fetchLoop now err org_code rest st1 with
          | (.error e, st2) => (.error e, st2)
          | (.ok bfs, st2) => (.ok (mkBatchFile now org_code bd :: bfs), st2) := rfl

/-- The state after one iteration of the sync loop: unchanged, or
continued from a state to which the fresh record was appended. -/
theorem fetchLoop_cons_state (now : Nat) (err : Option String) (org_code : String)
    (bd : BatchDescriptor) (rest : List BatchDescriptor) (st : DBState) :
    (fetchLoop now err org_code (bd :: rest) st).2 = st ∨
    ∃ st1, (st1 = st ∨
        (st1.batchFiles = st.batchFiles ++ [mkBatchFile now org_code bd] ∧
          findBatch st.batchFiles (mkBatchFile now org_code bd).batch_id = none)) ∧
      (fetchLoop now err org_code (bd :: rest) st).2 =
        (fetchLoop now err org_code rest st1).2 := by
  rw [fetchLoop_cons_eq]
  rcases hg : Database.get_batch_file err st (mkBatchFile now org_code bd).batch_id
    with e | ex
  · left; rfl
  · dsimp only
    rcases hcr : (if ex.isNone then
        Database.create_batch_file err st (mkBatchFile now org_code bd)
      else .ok st) with e | st1
    · left; rfl
    · dsimp only
      right
      refine ⟨st1, ?_, ?_⟩
      · by_cases hex : ex.isNone
        · rw [if_pos hex] at hcr
          exact Or.inr (create_batch_file_ok err st _ st1 hcr)
        · rw [if_neg hex] at hcr
          exact Or.inl (Except.ok.inj hcr).symm
      · rcases hrec : fetchLoop now err org_code rest st1 with ⟨res2, st2⟩
        rcases res2 with e | bfs <;> rfl

/-- The per-descriptor sync loop only ever appends records whose batch
ids were absent: lookups of existing records are unchanged, existing
records all survive, and every record present afterwards either was
already there or had no record under its batch id before. -/
theorem fetchLoop_frame (now : Nat) (err : Option String) (org_code : String) :
    ∀ (bdl : List BatchDescriptor) (st : DBState),
      (∀ id b0, findBatch st.batchFiles id = some b0 →
        findBatch (fetchLoop now err org_code bdl st).2.batchFiles id = some b0) ∧
      (∀ b0 ∈ st.batchFiles, b0 ∈ (fetchLoop now err org_code bdl st).2.batchFiles) ∧
      (∀ b' ∈ (fetchLoop now err org_code bdl st).2.batchFiles,
        b' ∈ st.batchFiles ∨ findBatch st.batchFiles b'.batch_id = none) := by
  intro bdl
  induction bdl with
  | nil =>
    intro st
    exact ⟨fun id b0 h => h, fun b0 hb0 => hb0, fun b' hb' => Or.inl hb'⟩
  | cons bd rest ih =>
    intro st
    rcases fetchLoop_cons_state now err org_code bd rest st with hid | ⟨st1, hstep, heq⟩
    · rw [hid]
      exact ⟨fun id b0 h => h, fun b0 hb0 => hb0, fun b' hb' => Or.inl hb'⟩
    · obtain ⟨ih1, ih2, ih3⟩ := ih st1
      rw [heq]
      rcases hstep with rfl | ⟨hbf, hfresh⟩
      · exact ⟨ih1, ih2, ih3⟩
      · refine ⟨?_, ?_, ?_⟩
        · intro id b0 hfind
          refine ih1 id b0 ?_
          rw [hbf]
          exact find?_append_left _ hfind
        · intro b0 hb0
          refine ih2 b0 ?_
          rw [hbf]
          exact List.mem_append_left _ hb0
        · intro b' hb'
          rcases ih3 b' hb' with hmem | hnone
          · rw [hbf] at hmem
            rcases List.mem_append.1 hmem with hmem1 | hmem1
            · exact Or.inl hmem1
            · cases List.mem_singleton.1 hmem1
              exact Or.inr hfresh
          · right
            rcases hcontra : findBatch st.batchFiles b'.batch_id with _ | b0
            · rfl
            · exfalso
              have hup := find?_append_left [mkBatchFile now org_code bd] hcontra
              unfold findBatch at hnone
              rw [← hbf] at hup
              rw [hnone] at hup
              cases hup

/-- A successful `create_org_code` never touches the batch collection. -/
theorem create_org_code_ok_batchFiles (err : Option String) (st : DBState)
    (o : OrgCode) (st1 : DBState) (h : Database.create_org_code err st o = .ok st1) :
    st1.batchFiles = st.batchFiles := by
  unfold Database.create_org_code at h
  rcases err with _ | m
  · dsimp only at h
    by_cases hd : (findOrg st.orgCodes o.org_code).isSome
    · rw [if_pos hd] at h; cases h
    · rw [if_neg hd] at h
      cases Except.ok.inj h
      rfl
  · cases h

/-- A successful `update_org_code` never touches the batch collection. -/
theorem update_org_code_ok_batchFiles (err : Option String) (now : Nat)
    (st : DBState) (code : String) (u : OrgUpdates) (r : Bool) (st1 : DBState)
    (h : Database.update_org_code err now st code u = .ok (r, st1)) :
    st1.batchFiles = st.batchFiles := by
  unfold Database.update_org_code at h
  rcases err with _ | m
  · dsimp only at h
    by_cases hd : (findOrg st.orgCodes code).isSome
    · rw [if_pos hd] at h
      have hp := Except.ok.inj h
      rw [Prod.mk.injEq] at hp
      rw [← hp.2]
    · rw [if_neg hd] at h
      have hp := Except.ok.inj h
      rw [Prod.mk.injEq] at hp
      rw [← hp.2]
  · cases h

/-- The network path of the metadata sync preserves every stored batch
record (the organization create/update step never touches the batch
collection, and the sync loop only appends fresh ids). -/
theorem fetchNetwork_frame (now : Nat) (err : Option String)
    (net : Except Exc (List BatchDescriptor)) (st : DBState) (org_code : String) :
    (∀ id b0, findBatch st.batchFiles id = some b0 →
      findBatch (fetchNetwork now err net st org_code).2.batchFiles id = some b0) ∧
    (∀ b0 ∈ st.batchFiles, b0 ∈ (fetchNetwork now err net st org_code).2.batchFiles) ∧
    (∀ b' ∈ (fetchNetwork now err net st org_code).2.batchFiles,
      b' ∈ st.batchFiles ∨ findBatch st.batchFiles b'.batch_id = none) := by
  unfold fetchNetwork
  rcases net with e | bdl
  · exact ⟨fun id b0 h => h, fun b0 h => h, fun b' h => Or.inl h⟩
  · dsimp only
    split
    · exact ⟨fun id b0 h => h, fun b0 h => h, fun b' h => Or.inl h⟩
    · split
      · exact ⟨fun id b0 h => h, fun b0 h => h, fun b' h => Or.inl h⟩
      · rename_i st1 hcr
        have hbf : st1.batchFiles = st.batchFiles :=
          create_org_code_ok_batchFiles err st _ st1 hcr
        obtain ⟨l1, l2, l3⟩ := fetchLoop_frame now err org_code bdl st1
        refine ⟨fun id b0 h => l1 id b0 (by rw [hbf]; exact h),
                fun b0 h => l2 b0 (by rw [hbf]; exact h),
                fun b' h => ?_⟩
        have := l3 b' h
        rw [hbf] at this
        exact this
    · split
      · exact ⟨fun id b0 h => h, fun b0 h => h, fun b' h => Or.inl h⟩
      · rename_i r1 st1 hup
        have hbf : st1.batchFiles = st.batchFiles :=
          update_org_code_ok_batchFiles err now st org_code _ r1 st1 hup
        obtain ⟨l1, l2, l3⟩ := fetchLoop_frame now err org_code bdl st1
        refine ⟨fun id b0 h => l1 id b0 (by rw [hbf]; exact h),
                fun b0 h => l2 b0 (by rw [hbf]; exact h),
                fun b' h => ?_⟩
        have := l3 b' h
        rw [hbf] at this
        exact this

/-- Claim C2: metadata re-sync never overwrites an existing Batch
Record.  For every batch id already stored, the lookup after
`fetch_batches_by_org_code` (with or without `force_refresh`) returns
the identical record — its `file_id`, `file_size` and `downloaded_at`
are preserved — and every record present afterwards either was already
stored or belongs to a batch id that had no record before (only missing
ones are created). -/
theorem c2_resync_preserves_records (now : Nat) (err : Option String)
    (net : Except Exc (List BatchDescriptor)) (st : DBState) (org_code : String)
    (force_refresh : Bool) (res : Except Exc (List BatchFile)) (st' : DBState) (k : Nat)
    (hfetch : BatchService.fetch_batches_by_org_code now err net st org_code
      force_refresh = (res, st', k)) :
    (∀ id b0, findBatch st.batchFiles id = some b0 →
      findBatch st'.batchFiles id = some b0) ∧
    (∀ b' ∈ st'.batchFiles,
      b' ∈ st.batchFiles ∨ findBatch st.batchFiles b'.batch_id = none) := by
  have hst' : st' = st ∨ st' = (fetchNetwork now err net st org_code).2 := by
    unfold BatchService.fetch_batches_by_org_code at hfetch
    rcases hv : validate_org_code org_code with e | bv
    · rw [hv] at hfetch
      dsimp only at hfetch
      left
      exact (congrArg (fun x => x.2.1) hfetch).symm
    · rw [hv] at hfetch
      dsimp only at hfetch
      by_cases hcond : force_refresh = false ∧ (if force_refresh = false then
          match Database.get_batches_by_org_code err st org_code with
          | .ok l => l
          | .error _ => [] else []) ≠ ([] : List BatchFile)
      · rw [if_pos hcond] at hfetch
        left
        exact (congrArg (fun x => x.2.1) hfetch).symm
      · rw [if_neg hcond] at hfetch
        rcases hn : fetchNetwork now err net st org_code with ⟨res2, st2⟩
        rw [hn] at hfetch
        dsimp only at hfetch
        right
        have h2 := congrArg (fun x => x.2.1) hfetch
        dsimp only at h2
        exact h2.symm
  obtain ⟨n1, n2, n3⟩ := fetchNetwork_frame now err net st org_code
  rcases hst' with h | h
  · subst h
    exact ⟨fun id b0 hh => hh, fun b' hb' => Or.inl hb'⟩
  · subst h
    exact ⟨n1, n3⟩

/-- Witness for C2 at concrete inputs: after a forced re-sync whose
remote listing re-lists the downloaded batch `b1` (and adds `b2`), the
stored record of `b1` — durable reference, size and download timestamp
included — is unchanged. -/
theorem c2_witness :
    findBatch (BatchService.fetch_batches_by_org_code 4 none (.ok bdlC2) dbC2
      "abc" true).2.1.batchFiles "b1" = some recC2 :=
  (c2_resync_preserves_records 4 none (.ok bdlC2) dbC2 "abc" true _ _ _ rfl).1
    "b1" recC2 rfl

/-! ## Claim C4 — one network call across two fetches -/

/-- With a working backend, the sync loop over a listing that contains at
least one batch id not yet recorded leaves the store with at least one
record owned by the synchronized org. -/
theorem fetchLoop_creates_org_member (now : Nat) (org_code : String) :
    ∀ (bdl : List BatchDescriptor) (st : DBState),
      (∃ bd ∈ bdl, findBatch st.batchFiles bd.batch_id = none) →
      ∃ b ∈ (fetchLoop now none org_code bdl st).2.batchFiles, b.org_code = org_code := by
  intro bdl
  induction bdl with
  | nil =>
    intro st h
    rcases h with ⟨bd, hmem, _⟩
    cases hmem
  | cons bd rest ih =>
    intro st h
    by_cases hf : findBatch st.batchFiles (mkBatchFile now org_code bd).batch_id = none
    · have hg : Database.get_batch_file none st (mkBatchFile now org_code bd).batch_id =
          .ok none := by
        unfold Database.get_batch_file
        rw [hf]
      have hcr : Database.create_batch_file none st (mkBatchFile now org_code bd) =
          .ok { st with batchFiles := st.batchFiles ++ [mkBatchFile now org_code bd] } := by
        unfold Database.create_batch_file
        dsimp only
        rw [hf]
        rfl
      rw [fetchLoop_cons_eq, hg]
      simp only [Option.isNone_none, reduceIte]
      rw [hcr]
      dsimp only
      rcases hrec : fetchLoop now none org_code rest
          { st with batchFiles := st.batchFiles ++ [mkBatchFile now org_code bd] }
        with ⟨res2, st2⟩
      obtain ⟨l1, l2, l3⟩ := fetchLoop_frame now none org_code rest
        { st with batchFiles := st.batchFiles ++ [mkBatchFile now org_code bd] }
      have hmem2 := l2 (mkBatchFile now org_code bd)
        (List.mem_append_right _ (List.mem_singleton.2 rfl))
      rw [hrec] at hmem2
      rcases res2 with e | bfs
      · exact ⟨mkBatchFile now org_code bd, hmem2, rfl⟩
      · exact ⟨mkBatchFile now org_code bd, hmem2, rfl⟩
    · obtain ⟨b0, hb0⟩ := Option.ne_none_iff_exists'.1 hf
      have hg : Database.get_batch_file none st (mkBatchFile now org_code bd).batch_id =
          .ok (some b0) := by
        unfold Database.get_batch_file
        rw [hb0]
      have hwit : ∃ bd' ∈ rest, findBatch st.batchFiles bd'.batch_id = none := by
        rcases h with ⟨bd', hmem', hfind'⟩
        rcases List.mem_cons.1 hmem' with hh | hh
        · subst hh
          exact absurd hfind' hf
        · exact ⟨bd', hh, hfind'⟩
      rw [fetchLoop_cons_eq, hg]
      simp only [Option.isNone_some, Bool.false_eq_true, reduceIte]
      rcases hrec : fetchLoop now none org_code rest st with ⟨res2, st2⟩
      have hres := ih st hwit
      rw [hrec] at hres
      rcases res2 with e | bfs
      · exact hres
      · exact hres

/-- Lifting `fetchLoop_creates_org_member` through the organization
create/update step of the network path. -/
theorem fetchNetwork_creates_org_member (now : Nat) (bdl : List BatchDescriptor)
    (st : DBState) (org_code : String)
    (hfresh : ∃ bd ∈ bdl, findBatch st.batchFiles bd.batch_id = none) :
    ∃ b ∈ (fetchNetwork now none (.ok bdl) st org_code).2.batchFiles,
      b.org_code = org_code := by
  unfold fetchNetwork
  dsimp only
  split
  · rename_i e heq
    unfold Database.get_org_code at heq
    cases heq
  · rename_i heq
    split
    · rename_i e hcr
      exfalso
      unfold Database.get_org_code at heq
      dsimp only at heq
      unfold Database.create_org_code at hcr
      dsimp only at hcr
      rw [Except.ok.inj heq] at hcr
      dsimp only [Option.isSome_none, Bool.false_eq_true, if_false] at hcr
      cases hcr
    · rename_i st1 hcr
      have hbf : st1.batchFiles = st.batchFiles :=
        create_org_code_ok_batchFiles none st _ st1 hcr
      refine fetchLoop_creates_org_member now org_code bdl st1 ?_
      rw [hbf]
      exact hfresh
  · rename_i o heq
    split
    · rename_i e hup
      exfalso
      unfold Database.update_org_code at hup
      dsimp only at hup
      by_cases hd : (findOrg st.orgCodes org_code).isSome
      · rw [if_pos hd] at hup; cases hup
      · rw [if_neg hd] at hup; cases hup
    · rename_i r1 st1 hup
      have hbf : st1.batchFiles = st.batchFiles :=
        update_org_code_ok_batchFiles none now st org_code _ r1 st1 hup
      refine fetchLoop_creates_org_member now org_code bdl st1 ?_
      rw [hbf]
      exact hfresh

/-- Counterexample to C4 as stated: for the valid org code `abc` whose
remote listing is empty, the first call succeeds and synchronizes
metadata (it returns the empty batch list and creates the organization
record), yet the second call without `force_refresh` invokes the Fetcher
again (its network-call count is 1, not 0): two calls issue two network
calls, not one. -/
theorem c4_counterexample :
    (BatchService.fetch_batches_by_org_code 1 none (.ok []) {} "abc" false).1 =
      .ok [] ∧
    (BatchService.fetch_batches_by_org_code 1 none (.ok []) {} "abc" false).2.2 = 1 ∧
    (BatchService.fetch_batches_by_org_code 2 none (.ok [])
        (BatchService.fetch_batches_by_org_code 1 none (.ok []) {} "abc" false).2.1
        "abc" false).2.2 = 1 :=
  ⟨rfl, rfl, rfl⟩

/-- Claim C4 as amended: for every valid org code with no locally stored
batches, when the first `fetchMetadata` call's remote listing contains
at least one batch id not already recorded, the pair of calls issues
exactly one network call: the first call hits the network (count 1) and
the second call returns the locally stored batch records with zero
Fetcher invocations, leaving the store untouched.  (With an empty remote
listing the empty local result is indistinguishable from missing
metadata and the second call hits the network again, as the
counterexample shows.) -/
theorem c4_second_call_is_cache_hit (now1 now2 : Nat) (st : DBState)
    (bdl : List BatchDescriptor) (net2 : Except Exc (List BatchDescriptor))
    (org_code : String)
    (hv : validate_org_code org_code = .ok true)
    (hmiss : st.batchFiles.filter (fun b => b.org_code == org_code) = [])
    (hfresh : ∃ bd ∈ bdl, findBatch st.batchFiles bd.batch_id = none) :
    (BatchService.fetch_batches_by_org_code now1 none (.ok bdl) st org_code
      false).2.2 = 1 ∧
    BatchService.fetch_batches_by_org_code now2 none net2
        (BatchService.fetch_batches_by_org_code now1 none (.ok bdl) st org_code
          false).2.1 org_code false =
      (.ok ((BatchService.fetch_batches_by_org_code now1 none (.ok bdl) st org_code
            false).2.1.batchFiles.filter (fun b => b.org_code == org_code)),
        (BatchService.fetch_batches_by_org_code now1 none (.ok bdl) st org_code
          false).2.1, 0) := by
  have hfirst : BatchService.fetch_batches_by_org_code now1 none (.ok bdl) st org_code
      false = ((fetchNetwork now1 none (.ok bdl) st org_code).1,
        (fetchNetwork now1 none (.ok bdl) st org_code).2, 1) := by
    unfold BatchService.fetch_batches_by_org_code
    rw [hv]
    dsimp only
    rw [show (match Database.get_batches_by_org_code none st org_code with
        | .ok l => l
        | .error _ => []) = ([] : List BatchFile) from hmiss]
    simp only [reduceIte, ne_eq, not_true_eq_false, and_false, if_false]
  have hmem : ∃ b ∈ (BatchService.fetch_batches_by_org_code now1 none (.ok bdl) st
      org_code false).2.1.batchFiles, b.org_code = org_code := by
    rw [hfirst]
    exact fetchNetwork_creates_org_member now1 bdl st org_code hfresh
  refine ⟨by rw [hfirst], ?_⟩
  have hne : (BatchService.fetch_batches_by_org_code now1 none (.ok bdl) st org_code
      false).2.1.batchFiles.filter (fun b => b.org_code == org_code) ≠ [] := by
    rcases hmem with ⟨b, hb, hbo⟩
    exact List.ne_nil_of_mem (List.mem_filter.2 ⟨hb, by rw [hbo]; exact beq_self_eq_true _⟩)
  generalize hst1 : (BatchService.fetch_batches_by_org_code now1 none (.ok bdl) st
    org_code false).2.1 = st1 at hne ⊢
  unfold BatchService.fetch_batches_by_org_code
  rw [hv]
  dsimp only
  rw [show (match Database.get_batches_by_org_code none st1 org_code with
      | .ok l => l
      | .error _ => []) =
    st1.batchFiles.filter (fun b => b.org_code == org_code) from rfl]
  rw [if_pos ⟨rfl, hne⟩]
  simp only [reduceIte]

/-- Witness for C4 at concrete inputs: the fresh store, org `abc`, and a
remote listing with the single new batch `b1`. -/
theorem c4_witness :
    (BatchService.fetch_batches_by_org_code 1 none (.ok bdlC4) {} "abc"
      false).2.2 = 1 ∧
    BatchService.fetch_batches_by_org_code 2 none (.ok []) 
        (BatchService.fetch_batches_by_org_code 1 none (.ok bdlC4) {} "abc"
          false).2.1 "abc" false =
      (.ok ((BatchService.fetch_batches_by_org_code 1 none (.ok bdlC4) {} "abc"
            false).2.1.batchFiles.filter (fun b => b.org_code == "abc")),
        (BatchService.fetch_batches_by_org_code 1 none (.ok bdlC4) {} "abc"
          false).2.1, 0) :=
  c4_second_call_is_cache_hit 1 2 {} bdlC4 (.ok []) "abc" rfl rfl
    ⟨{ batch_id := "b1" }, List.mem_singleton.2 rfl, rfl⟩

/-- Witness for C10 at concrete inputs: a forced refresh over a store
whose record `b1` is downloaded (`dbC2`) returns a fresh object for `b1`
with no durable reference, and its API entry reports
`downloaded = false`. -/
theorem c10_witness :
    (mkBatchFile 5 "abc" bdC10).file_id = none ∧
    (mkBatchFile 5 "abc" bdC10).file_size = 0 ∧
    (mkBatchFile 5 "abc" bdC10).downloaded_at = none ∧
    (apiBatchEntry (mkBatchFile 5 "abc" bdC10)).downloaded = false :=
  c10_network_path_resets_download_state 5 none (.ok bdlC2) dbC2 "abc" true
    (List.map (mkBatchFile 5 "abc") bdlC2) _ _ (Or.inl rfl) rfl
    (mkBatchFile 5 "abc" bdC10)
    (by simp [bdlC2, bdC10])
